import Mathlib

/-!
Shallow embedding of the hasura/evalset latency-testing harness
(`index.ts` and `shared.ts`) in Lean 4, together with proofs of the
behavioural claims about its core components: the trace-polling loop
(`getTrace`), the metric extraction in `callPromptQL`, the
`RateLimiter`, the `BatchProcessor`, environment resolution and
validation (`getEnvironmentConfig`, `validateAllEnvironments`), the
Patronus judge client (`callPatronusJudge`) and the per-question run
batching in `processQuestion`.

Asynchronous effects are embedded explicitly: each `await ... setTimeout`
becomes an element of a returned list of sleep durations, `Date.now()`
observations become inputs, and HTTP backends become functions from the
attempt number to the response.  JavaScript numbers are modelled as `ℚ`
(durations) or `ℕ`/`ℤ` (counters), and nullable values as `Option`.
-/

/-! ## Spans and the trace fetcher (`getTrace`, index.ts lines 706-826) -/

/-- One span record returned by the tracing backend's GraphQL query.
`Duration` is the nanosecond duration (string-encoded integer in the
JSON response; `callPromptQL` applies `parseInt` to it, so it is an
integer here). -/
structure SpanRec where
  SpanName : String
  Duration : ℤ
deriving DecidableEq, Repr

/-- The check `traces.find(t => t.SpanName === "POST:/query")` is used as the
success test of each polling attempt: the attempt succeeds iff some
span is named `POST:/query`.  (The source first checks
`traces.length > 0`; an empty list trivially has no such span, so the
two checks collapse to this one.) -/
def hasRootSpan (traces : List SpanRec) : Bool :=
  traces.any (fun t => t.SpanName = "POST:/query")

/-- The backoff before the next attempt:
`Math.min(Math.pow(2, attempt - 1) * baseDelay, maxDelay)` with
`baseDelay = 1000` and `maxDelay = 30000` (milliseconds). -/
def backoffDelay (attempt : ℕ) : ℕ :=
  min (2 ^ (attempt - 1) * 1000) 30000

/-- The error message thrown after retry exhaustion
(index.ts lines 822-826). -/
def traceNotFoundMessage (traceId : String) : String :=
  "No traces found with POST:/query span after maximum retries for trace ID: " ++ traceId

/-- Outcome of `getTrace`: the result (`ok (attempt, spans)` for the
return on a successful attempt, `error msg` for the final `throw`),
the list of backoff sleeps that were awaited, and how many query
attempts were issued. -/
structure GetTraceResult where
  result : Except String (ℕ × List SpanRec)
  sleeps : List ℕ
  attempts : ℕ
deriving Repr

/-- The body of `getTrace`'s `for (let attempt = 1; attempt <= maxRetries; ...)`
loop, over the list of remaining attempt numbers.  `backend a` is the
span list the tracing backend returns for the query issued on attempt
`a`.  On a failed attempt the loop sleeps `backoffDelay a` unless it
was the last attempt (`attempt < maxRetries` guards both sleep sites
in the source), and after the last failed attempt the final `throw`
produces the error. -/
def getTraceLoop (backend : ℕ → List SpanRec) (traceId : String) :
    List ℕ → GetTraceResult
  | [] => ⟨.error (traceNotFoundMessage traceId), [], 0⟩
  | a :: rest =>
    if hasRootSpan (backend a) then
      ⟨.ok (a, backend a), [], 1⟩
    else
      match rest with
      | [] => ⟨.error (traceNotFoundMessage traceId), [], 1⟩
      | _ :: _ =>
        let r := getTraceLoop backend traceId rest
        ⟨r.result, backoffDelay a :: r.sleeps, r.attempts + 1⟩

/-- The function `getTrace` runs attempts `1` to `maxRetries = 10`. -/
def getTrace (backend : ℕ → List SpanRec) (traceId : String) : GetTraceResult :=
  getTraceLoop backend traceId (List.range' 1 10)

/-! ## Metric extraction in `callPromptQL` (index.ts lines 968-1015) -/

/-- Nanoseconds to seconds: `durationNs / 1_000_000_000`. -/
def nsToSeconds (ns : ℤ) : ℚ :=
  (ns : ℚ) / 1000000000

/-- The lookup `traces.find(t => t.SpanName === name)`. -/
def findSpan (name : String) (traces : List SpanRec) : Option SpanRec :=
  traces.find? (fun t => t.SpanName = name)

/-- The `spanDurations` record built by `callPromptQL` (seconds). -/
structure SpanDurations where
  sql_engine_execute_sql : Option ℚ
  call_llm_streaming : Option ℚ
  pure_code_execution : Option ℚ
deriving DecidableEq, Repr

/-- Everything `callPromptQL` derives from the found span set: the
root-span duration in seconds, the component span durations, and the
iteration count. -/
structure TraceMetrics where
  duration : ℚ
  spanDurations : SpanDurations
  iterations : ℕ
deriving DecidableEq, Repr

/-- The metric-extraction block of `callPromptQL`: find the
`POST:/query` span (`none` if absent — the source then records a run
with `duration: null`), convert its duration to seconds, convert the
`sql_engine_execute_sql` and `call_llm_streaming` span durations when
those spans are present, compute
`pureCodeTime = durationS - (sqlEngineTime || 0) - (llmStreamingTime || 0)`
(a missing span contributes `0`; a present span with duration `0`
also contributes `0` under JavaScript's `||`, which agrees with
`Option.getD 0`), and count the `promptql_exec_code_streaming` spans. -/
def extractTraceMetrics (traces : List SpanRec) : Option TraceMetrics :=
  match findSpan "POST:/query" traces with
  | none => none
  | some querySpan =>
    let durationS := nsToSeconds querySpan.Duration
    let sqlEngineTime := (findSpan "sql_engine_execute_sql" traces).map
      (fun s => nsToSeconds s.Duration)
    let llmStreamingTime := (findSpan "call_llm_streaming" traces).map
      (fun s => nsToSeconds s.Duration)
    let pureCodeTime := durationS - sqlEngineTime.getD 0 - llmStreamingTime.getD 0
    let iterations :=
      (traces.filter (fun t => t.SpanName = "promptql_exec_code_streaming")).length
    some ⟨durationS, ⟨sqlEngineTime, llmStreamingTime, some pureCodeTime⟩, iterations⟩

/-! ## RateLimiter (index.ts lines 1255-1311) -/

/-- The start time of the next operation in `RateLimiter.processQueue`:
with `now = Date.now()` at loop entry and `lastRequestTime` the
recorded start of the previous operation, the loop sleeps
`minInterval - (now - lastRequestTime)` when
`now - lastRequestTime < minInterval` and then starts the operation
(recording `Date.now()`, which after an ideal sleep is
`now + (minInterval - (now - lastRequestTime))`); otherwise it starts
immediately at `now`. -/
def RateLimiter.nextStart (minInterval lastRequestTime now : ℚ) : ℚ :=
  if now - lastRequestTime < minInterval then
    now + (minInterval - (now - lastRequestTime))
  else now

/-- The sequence of operation start times produced by the recursive
drain loop `processQueue`, given the `Date.now()` observation at each
iteration's entry (one per queued operation; these are arbitrary — the
guarantee below needs no assumption on them). -/
def RateLimiter.processQueueStarts (minInterval : ℚ) :
    ℚ → List ℚ → List ℚ
  | _, [] => []
  | lastRequestTime, now :: rest =>
    let start := RateLimiter.nextStart minInterval lastRequestTime now
    start :: RateLimiter.processQueueStarts minInterval start rest

/-! ## BatchProcessor (index.ts lines 1313-1376) -/

/-- Fuelled version of the slicing loop
`for (let i = 0; i < items.length; i += size) out.push(items.slice(i, i + size))`
shared by `createBatches` (with `batchSize`) and `createChunks` (with
`concurrency`).  The fuel `items.length` suffices for every positive
`size`; the source loop does not terminate for `size = 0`. -/
def sliceLoop (size : ℕ) : ℕ → List α → List (List α)
  | 0, _ => []
  | _, [] => []
  | fuel + 1, x :: xs =>
    (x :: xs).take size :: sliceLoop size fuel ((x :: xs).drop size)

/-- The method `BatchProcessor.createBatches`. -/
def BatchProcessor.createBatches (batchSize : ℕ) (items : List α) : List (List α) :=
  sliceLoop batchSize items.length items

/-- The method `BatchProcessor.createChunks`. -/
def BatchProcessor.createChunks (concurrency : ℕ) (items : List α) : List (List α) :=
  sliceLoop concurrency items.length items

/-- The method `BatchProcessor.processBatch`: chunks run one after another; within
a chunk, `Promise.all(chunk.map(item => rateLimiter.enqueue(() => processor(item))))`
resolves to the processor results in chunk order (`enqueue` resolves
each caller's promise with its own operation's result). -/
def BatchProcessor.processBatch (concurrency : ℕ) (f : α → β) (batch : List α) :
    List β :=
  (BatchProcessor.createChunks concurrency batch).flatMap (fun chunk => chunk.map f)

/-- The method `BatchProcessor.processBatches`: batches run sequentially and their
result arrays are concatenated in order. -/
def BatchProcessor.processBatches (concurrency batchSize : ℕ) (f : α → β)
    (items : List α) : List β :=
  (BatchProcessor.createBatches batchSize items).flatMap
    (BatchProcessor.processBatch concurrency f)

/-! ## Environment resolution and validation (index.ts lines 228-367) -/

/-- One parsed `--env` entry (the CLI coerce at index.ts lines 128-149):
`displayName = version ? baseEnv + "(" + version + ")" : baseEnv`. -/
structure EnvTarget where
  baseEnv : String
  version : Option String
  displayName : String
deriving DecidableEq, Repr

/-- The slice of `process.env` the suite reads.  Each field is `none`
when the variable is unset; JavaScript additionally treats a set but
empty variable as missing (`!process.env.X`), see `jsTruthy`. -/
structure EnvVars where
  PROMPTQL_DATA_PLANE_URL_SECONDARY : Option String
  PROMPTQL_DATA_PLANE_URL_MAIN : Option String
  PROMPTQL_API_KEY_DEV : Option String
  PROMPTQL_API_KEY_STAGING : Option String
  PROMPTQL_API_KEY_PRODUCTION : Option String
  DDN_URL_DEV : Option String
  DDN_URL_STAGING : Option String
  DDN_URL_PRODUCTION : Option String
  PATRONUS_BASE_URL : Option String
  PATRONUS_API_KEY : Option String
  PATRONUS_PROJECT_ID : Option String
  DDN_AUTH_TOKEN : Option String
  HASURA_PAT : Option String
deriving Repr

/-- JavaScript truthiness of an optional string: `undefined` and the
empty string are falsy. -/
def jsTruthy : Option String → Bool
  | some s => s != ""
  | none => false

/-- The per-environment `Resolved Config` record (the object literals
in `getEnvironmentConfig`'s `configs` table). -/
structure Config where
  PROMPTQL_URL : Option String
  PROMPTQL_API_KEY : Option String
  DDN_URL : Option String
  PATRONUS_BASE_URL : Option String
  PATRONUS_API_KEY : Option String
  PATRONUS_PROJECT_ID : Option String
deriving DecidableEq, Repr

/-- The `configs` lookup table of `getEnvironmentConfig`
(index.ts lines 233-263): `none` for an unrecognised base name. -/
def baseConfigFor (ev : EnvVars) : String → Option Config
  | "dev" => some ⟨ev.PROMPTQL_DATA_PLANE_URL_SECONDARY, ev.PROMPTQL_API_KEY_DEV,
      ev.DDN_URL_DEV, ev.PATRONUS_BASE_URL, ev.PATRONUS_API_KEY, ev.PATRONUS_PROJECT_ID⟩
  | "staging" => some ⟨ev.PROMPTQL_DATA_PLANE_URL_MAIN, ev.PROMPTQL_API_KEY_STAGING,
      ev.DDN_URL_STAGING, ev.PATRONUS_BASE_URL, ev.PATRONUS_API_KEY, ev.PATRONUS_PROJECT_ID⟩
  | "production" => some ⟨ev.PROMPTQL_DATA_PLANE_URL_MAIN, ev.PROMPTQL_API_KEY_PRODUCTION,
      ev.DDN_URL_PRODUCTION, ev.PATRONUS_BASE_URL, ev.PATRONUS_API_KEY, ev.PATRONUS_PROJECT_ID⟩
  | _ => none

/-- JavaScript `String.split` for a single-character separator, on character lists
(JavaScript `s.split(c)` semantics, e.g. `"a.b"` → `["a","b"]`,
`""` → `[""]`).  Written directly because `String.splitOn` does not
reduce in the kernel. -/
def splitChar (c : Char) : List Char → List Char → List (List Char)
  | [], acc => [acc.reverse]
  | x :: xs, acc =>
    if x = c then acc.reverse :: splitChar c xs []
    else splitChar c xs (x :: acc)

/-- JavaScript `parts.join(sep)` on character lists. -/
def joinWith (sep : Char) : List (List Char) → List Char
  | [] => []
  | [p] => p
  | p :: rest => p ++ sep :: joinWith sep rest

/-- The hostname rewrite of `getEnvironmentConfig` (index.ts lines
277-285): split the hostname on `.`, append `-{version}` to the first
label, and rejoin. -/
def rewriteHostname (hostname version : String) : String :=
  match splitChar '.' hostname.data [] with
  | [] => hostname
  | p :: ps => String.mk (joinWith '.' ((p ++ '-' :: version.data) :: ps))

/-- Modelled from the spec: the platform URL object (`new URL`) used by
`getEnvironmentConfig`, restricted to the `scheme://hostname/path`
shape the backend URLs take (§4.1's example); `scheme` keeps its
trailing `:`.  Parsing splits on `/`: `[scheme:, "", hostname, …path]`. -/
structure URLParts where
  scheme : String
  hostname : String
  pathSegments : List String
deriving DecidableEq, Repr

/-- Modelled from the spec: `new URL(s)` for `scheme://hostname/path`
strings (`none` models the constructor throwing). -/
def parseURL (s : String) : Option URLParts :=
  match splitChar '/' s.data [] with
  | s0 :: s1 :: host :: pathSegs =>
    if s1 = [] ∧ s0 ≠ [] ∧ s0.getLast? = some ':' ∧ host ≠ [] then
      some ⟨String.mk s0, String.mk host, pathSegs.map String.mk⟩
    else none
  | _ => none

/-- Modelled from the spec: `url.toString()` for the same URL shape
(a URL with an empty path serialises with a trailing `/`). -/
def serializeURL (u : URLParts) : String :=
  String.mk (u.scheme.data ++ '/' :: '/' :: u.hostname.data
    ++ '/' :: joinWith '/' (u.pathSegments.map String.data))

/-- The resolver `getEnvironmentConfig` (index.ts lines 228-297): look up the base
config; when a version is present, require a truthy `DDN_URL`, parse
it, rewrite the hostname's first label and store the re-serialised URL
back, leaving every other field unchanged. -/
def getEnvironmentConfig (ev : EnvVars) (env : EnvTarget) : Except String Config :=
  match baseConfigFor ev env.baseEnv with
  | none => .error ("Invalid environment: " ++ env.baseEnv)
  | some config =>
    match env.version with
    | none => .ok config
    | some version =>
      if jsTruthy config.DDN_URL then
        match config.DDN_URL with
        | none => .error ("DDN_URL not configured for " ++ env.baseEnv)
        | some baseUrl =>
          match parseURL baseUrl with
          | none => .error ("Invalid DDN_URL format: " ++ baseUrl)
          | some url =>
            .ok { config with
                  DDN_URL := some (serializeURL
                    { url with hostname := rewriteHostname url.hostname version }) }
      else .error ("DDN_URL not configured for " ++ env.baseEnv)

/-- The per-environment missing-requirement scan of
`validateAllEnvironments` (index.ts lines 309-351), in source order:
the three per-environment variables, the two common variables, then
the base environment's system-prompt file. -/
def missingVarsFor (ev : EnvVars) (promptFileOnDisk : String → Bool)
    (env : EnvTarget) : List String :=
  (if env.baseEnv = "dev" then
      (if jsTruthy ev.PROMPTQL_DATA_PLANE_URL_SECONDARY then []
       else ["PROMPTQL_DATA_PLANE_URL_SECONDARY"])
      ++ (if jsTruthy ev.PROMPTQL_API_KEY_DEV then [] else ["PROMPTQL_API_KEY_DEV"])
      ++ (if jsTruthy ev.DDN_URL_DEV then [] else ["DDN_URL_DEV"])
    else if env.baseEnv = "staging" then
      (if jsTruthy ev.PROMPTQL_DATA_PLANE_URL_MAIN then []
       else ["PROMPTQL_DATA_PLANE_URL_MAIN"])
      ++ (if jsTruthy ev.PROMPTQL_API_KEY_STAGING then [] else ["PROMPTQL_API_KEY_STAGING"])
      ++ (if jsTruthy ev.DDN_URL_STAGING then [] else ["DDN_URL_STAGING"])
    else if env.baseEnv = "production" then
      (if jsTruthy ev.PROMPTQL_DATA_PLANE_URL_MAIN then []
       else ["PROMPTQL_DATA_PLANE_URL_MAIN"])
      ++ (if jsTruthy ev.PROMPTQL_API_KEY_PRODUCTION then []
          else ["PROMPTQL_API_KEY_PRODUCTION"])
      ++ (if jsTruthy ev.DDN_URL_PRODUCTION then [] else ["DDN_URL_PRODUCTION"])
    else [])
  ++ (if jsTruthy ev.DDN_AUTH_TOKEN then [] else ["DDN_AUTH_TOKEN"])
  ++ (if jsTruthy ev.HASURA_PAT then [] else ["HASURA_PAT"])
  ++ (if promptFileOnDisk ("system_prompts/" ++ env.baseEnv ++ ".txt") then []
      else ["system_prompts/" ++ env.baseEnv ++ ".txt"])

/-- The validator `validateAllEnvironments` (index.ts lines 300-367): collect, per
requested environment, its missing requirements; if any environment
has missing items, throw one error carrying the whole
`allMissingVars` structure (`some`), otherwise return normally
(`none`).  `promptFileOnDisk` models `fs.existsSync`. -/
def validateAllEnvironments (ev : EnvVars) (promptFileOnDisk : String → Bool)
    (envs : List EnvTarget) : Option (List (String × List String)) :=
  let allMissingVars :=
    (envs.map (fun e => (e.displayName, missingVarsFor ev promptFileOnDisk e))).filter
      (fun p => !p.2.isEmpty)
  if allMissingVars.isEmpty then none else some allMissingVars

/-! ## Patronus judge client (`callPatronusJudge`, index.ts lines 1913-2113,
shared.ts lines 174-359; the two copies have identical retry logic) -/

/-- The evaluation fields an object in the judge response may carry,
under both field-name variants (`score_raw`/`score`, `pass`/`passed`,
`explanation`/`details`).  `none` models an absent field. -/
structure JudgeFields where
  score_raw : Option ℚ
  score : Option ℚ
  pass : Option Bool
  passed : Option Bool
  explanation : Option String
  details : Option String
deriving DecidableEq, Repr

/-- The all-absent field record (JavaScript `{}`). -/
def JudgeFields.empty : JudgeFields := ⟨none, none, none, none, none, none⟩

/-- The element `results[0]` of the judge response body: it may carry
`error_message`, a nested `evaluation_result` object, and/or the
evaluation fields at top level (the `results[0]` fallback of
`evaluation_result || results[0] || {}`). -/
structure JudgeResultRec where
  error_message : Option String
  evaluation_result : Option JudgeFields
  fields : JudgeFields
deriving DecidableEq, Repr

/-- What one `axios.post` to the judge can produce: a thrown error
(network failure, timeout, non-2xx, …) or a response with an HTTP
status and a `results` array. -/
inductive JudgeHTTP where
  | throwErr
  | resp (status : ℕ) (results : List JudgeResultRec)
deriving DecidableEq, Repr

/-- The record `callPatronusJudge` returns on success. -/
structure JudgeVerdict where
  passed : Bool
  score : ℚ
  details : String
deriving DecidableEq, Repr

/-- JavaScript `a || dflt` for an optional string `a` (an empty string
is falsy and falls through to the default). -/
def jsStringOr (a : Option String) (dflt : String) : String :=
  match a with
  | some s => if s = "" then dflt else s
  | none => dflt

/-- The field extraction on a successful judge response
(index.ts lines 2042-2087):
`score = score_raw !== undefined ? score_raw : score !== undefined ? score : 0`,
`passed = pass !== undefined ? pass : passed !== undefined ? passed : false`,
`details = explanation || details || "No details provided"`. -/
def extractVerdict (result : JudgeFields) : JudgeVerdict where
  passed :=
    match result.pass with
    | some b => b
    | none => result.passed.getD false
  score :=
    match result.score_raw with
    | some s => s
    | none => result.score.getD 0
  details := jsStringOr result.explanation (jsStringOr result.details "No details provided")

/-- One attempt of `callPatronusJudge`'s `try` block: `none` is a
thrown error (caught by the retry handler), `some v` a returned
verdict.  A non-200 status throws; the check
`if (patronusResponse.data.results?.[0]?.error_message)` throws on a
*truthy* `error_message` — a present but empty string is falsy and
does not throw; otherwise the fields come from
`results?.[0]?.evaluation_result || results?.[0] || {}` (an object is
always truthy in JavaScript, so the subsequent `if (!result) throw`
never fires). -/
def judgeAttempt (r : JudgeHTTP) : Option JudgeVerdict :=
  match r with
  | .throwErr => none
  | .resp status results =>
    if status ≠ 200 then none
    else if jsTruthy (results.head?.bind (fun r0 => r0.error_message)) then none
    else
      let result :=
        match results.head? with
        | some r0 =>
          match r0.evaluation_result with
          | some er => er
          | none => r0.fields
        | none => JudgeFields.empty
      some (extractVerdict result)

/-- The `for (let attempt = 1; attempt <= maxRetries; attempt++)` retry
loop over the list of remaining attempt numbers: on a caught error the
loop sleeps `retryDelay = 1000` ms and retries unless it was the last
attempt (`attempt < maxRetries`), in which case it returns `null`.
The second component records the sleeps. -/
def judgeLoop (backend : ℕ → JudgeHTTP) :
    List ℕ → Option JudgeVerdict × List ℕ
  | [] => (none, [])
  | [a] => (judgeAttempt (backend a), [])
  | a :: rest =>
    match judgeAttempt (backend a) with
    | some v => (some v, [])
    | none =>
      let r := judgeLoop backend rest
      (r.1, 1000 :: r.2)

/-- The function `callPatronusJudge` runs attempts `1` to `maxRetries = 3`. -/
def callPatronusJudge (backend : ℕ → JudgeHTTP) : Option JudgeVerdict × List ℕ :=
  judgeLoop backend [1, 2, 3]

/-! ## Per-question run batching (`processQuestion`, index.ts lines 1541-1744) -/

/-- The `for (let batch = 0; batch < argv["num-batches"]; batch++)` loop
of `processQuestion` for one environment, counting down the remaining
batches.  Each batch starts runs `batch*NUM_RUNS + j` for
`j < NUM_RUNS` (`startRun = batch * NUM_RUNS`) and appends their
results in order (`Promise.all`); between batches — `batch <
num-batches - 1`, i.e. the remaining count is non-zero — and when
`argv["batch-delay"] > 0`, it sleeps `batch-delay * 1000` ms.  `run n`
is the value `runQuestionTests` resolves with for run number `n`
(`none` for a failed run); the second component records the sleeps. -/
def processQuestionBatchLoop (run : ℕ → Option ρ) (NUM_RUNS : ℕ) (batchDelay : ℚ) :
    ℕ → ℕ → List (Option ρ) × List ℚ
  | _, 0 => ([], [])
  | batch, remaining + 1 =>
    let runs := (List.range NUM_RUNS).map (fun j => run (batch * NUM_RUNS + j))
    let r := processQuestionBatchLoop run NUM_RUNS batchDelay (batch + 1) remaining
    (runs ++ r.1,
     if remaining ≠ 0 ∧ 0 < batchDelay then batchDelay * 1000 :: r.2 else r.2)

/-- All runs of one (question, environment) pair: `numBatches` batches
starting from batch `0`. -/
def processQuestionRuns (run : ℕ → Option ρ) (NUM_RUNS numBatches : ℕ)
    (batchDelay : ℚ) : List (Option ρ) × List ℚ :=
  processQuestionBatchLoop run NUM_RUNS batchDelay 0 numBatches

/-- The per-pair statistics recorded in the results tree
(index.ts lines 1604-1612 and 1701-1742): `successfulRuns` is the
number of non-null entries of `allRuns` (across every batch), and
`failedRuns = NUM_RUNS - successfulRuns` — computed against the
per-batch run count, not the executed total, so it is an integer that
can be negative.  When no run succeeded the `else` branch records
`successful_runs: 0, failed_runs: NUM_RUNS` (the same values). -/
def pairStats (NUM_RUNS : ℕ) (allRuns : List (Option ρ)) : ℕ × ℤ :=
  let validRuns := allRuns.filterMap id
  let successfulRuns := validRuns.length
  let failedRuns : ℤ := (NUM_RUNS : ℤ) - (successfulRuns : ℤ)
  if 0 < validRuns.length then (successfulRuns, failedRuns)
  else (0, (NUM_RUNS : ℤ))

/-! ## Theorems: BatchProcessor (C2) -/

/-- Mapping a function over the slices and flattening recovers the map
over the original list, for any positive slice size. -/
theorem sliceLoop_flatMap_map (size : ℕ) (hsize : 1 ≤ size) (f : α → β) :
    ∀ (fuel : ℕ) (l : List α), l.length ≤ fuel →
      (sliceLoop size fuel l).flatMap (fun chunk => chunk.map f) = l.map f := by
  intro fuel
  induction fuel with
  | zero =>
    intro l hl
    have : l = [] := List.length_eq_zero.mp (Nat.le_zero.mp hl)
    subst this
    simp [sliceLoop]
  | succ n ih =>
    intro l hl
    match l with
    | [] => simp [sliceLoop]
    | x :: xs =>
      simp only [sliceLoop, List.flatMap_cons]
      rw [ih ((x :: xs).drop size) (by simp at hl ⊢; omega)]
      rw [← List.map_append, List.take_append_drop]

/-- C2: for every list of items and every batch size and concurrency
limit that are at least 1 (for a size of 0 the source slicing loop does
not terminate), `BatchProcessor.processBatches(items, processor)`
equals `items.map processor`: exactly `N` results, and result `i` is
`processor(items[i])`. -/
theorem processBatches_preserves_order (concurrency batchSize : ℕ)
    (hC : 1 ≤ concurrency) (hB : 1 ≤ batchSize) (f : α → β) (items : List α) :
    BatchProcessor.processBatches concurrency batchSize f items = items.map f ∧
    (BatchProcessor.processBatches concurrency batchSize f items).length
      = items.length ∧
    ∀ i : ℕ, (BatchProcessor.processBatches concurrency batchSize f items).get? i
      = (items.get? i).map f := by
  have hmain : BatchProcessor.processBatches concurrency batchSize f items
      = items.map f := by
    unfold BatchProcessor.processBatches BatchProcessor.createBatches
    have hbatch : ∀ b : List α, BatchProcessor.processBatch concurrency f b
        = b.map f := by
      intro b
      unfold BatchProcessor.processBatch BatchProcessor.createChunks
      exact sliceLoop_flatMap_map concurrency hC f b.length b le_rfl
    calc (sliceLoop batchSize items.length items).flatMap
            (BatchProcessor.processBatch concurrency f)
        = (sliceLoop batchSize items.length items).flatMap
            (fun chunk => chunk.map f) := by
          apply List.flatMap_congr
          intro b _
          exact hbatch b
      _ = items.map f := sliceLoop_flatMap_map batchSize hB f items.length items le_rfl
  refine ⟨hmain, by rw [hmain]; simp, fun i => by rw [hmain]; simp [List.get?_map]⟩

/-- Witness for C2 at a concrete input: 5 items, batch size 2,
concurrency 3. -/
theorem processBatches_preserves_order_witness :
    BatchProcessor.processBatches 3 2 (fun n => n + 1) [10, 20, 30, 40, 50]
      = [11, 21, 31, 41, 51] := by
  rw [(processBatches_preserves_order 3 2 (by norm_num) (by norm_num)
    (fun n => n + 1) [10, 20, 30, 40, 50]).1]
  rfl

/-! ## Theorems: RateLimiter (C3) -/

/-- The gate of `processQueue`: the next start is at least
`minInterval` after the recorded start of the previous operation. -/
theorem RateLimiter.nextStart_ge (m last now : ℚ) :
    m ≤ RateLimiter.nextStart m last now - last := by
  unfold RateLimiter.nextStart
  split <;> linarith

/-- Consecutive starts produced by the drain loop are at least
`minInterval` apart, whatever `Date.now()` observations occur. -/
theorem RateLimiter.processQueueStarts_chain (m : ℚ) :
    ∀ (nows : List ℚ) (last : ℚ),
      (RateLimiter.processQueueStarts m last nows).Chain' (fun a b => m ≤ b - a)
  | [], _ => by simp [RateLimiter.processQueueStarts]
  | now :: rest, last => by
    simp only [RateLimiter.processQueueStarts]
    rw [List.chain'_cons']
    refine ⟨?_, RateLimiter.processQueueStarts_chain m rest _⟩
    intro y hy
    cases rest with
    | nil => simp [RateLimiter.processQueueStarts] at hy
    | cons n2 r2 =>
      simp only [RateLimiter.processQueueStarts, List.head?_cons,
        Option.mem_def, Option.some.injEq] at hy
      subst hy
      exact RateLimiter.nextStart_ge m _ n2

/-- C3: for every `requestsPerSecond > 0`, any two consecutive
operation start times produced by the Rate Limiter's drain loop are at
least `1000 / requestsPerSecond` milliseconds apart (under ideal
sleeps; the `Date.now()` observations at loop entry are arbitrary). -/
theorem rateLimiter_min_interval (requestsPerSecond : ℚ)
    (h : 0 < requestsPerSecond) (lastRequestTime : ℚ) (nows : List ℚ) :
    (RateLimiter.processQueueStarts (1000 / requestsPerSecond)
        lastRequestTime nows).Chain'
      (fun a b => 1000 / requestsPerSecond ≤ b - a) :=
  RateLimiter.processQueueStarts_chain _ nows lastRequestTime

/-- Witness for C3 at `requestsPerSecond = 2`, two queued operations
both observed at time 0. -/
theorem rateLimiter_min_interval_witness :
    (RateLimiter.processQueueStarts ((1000 : ℚ) / 2) 0 [0, 0]).Chain'
      (fun a b => (1000 : ℚ) / 2 ≤ b - a) :=
  rateLimiter_min_interval 2 (by norm_num) 0 [0, 0]

/-! ## Theorems: pure code execution time (C4) -/

/-- C4: `pure_code_execution` is always the total duration minus the
SQL span duration (0 when absent) minus the LLM span duration (0 when
absent); `total = 10`, `sql = 2`, `llm` missing gives `pure = 8`; the
value is not clamped and can be negative (`total = 1`, `sql = 2`). -/
theorem pure_code_execution_subtractive :
    (∀ (traces : List SpanRec) (m : TraceMetrics),
      extractTraceMetrics traces = some m →
      m.spanDurations.pure_code_execution =
        some (m.duration - m.spanDurations.sql_engine_execute_sql.getD 0
          - m.spanDurations.call_llm_streaming.getD 0)) ∧
    extractTraceMetrics
        [⟨"POST:/query", 10000000000⟩, ⟨"sql_engine_execute_sql", 2000000000⟩]
      = some ⟨10, ⟨some 2, none, some 8⟩, 0⟩ ∧
    extractTraceMetrics
        [⟨"POST:/query", 1000000000⟩, ⟨"sql_engine_execute_sql", 2000000000⟩]
      = some ⟨1, ⟨some 2, none, some (-1)⟩, 0⟩ := by
  refine ⟨?_, ?_, ?_⟩
  · intro traces m hm
    unfold extractTraceMetrics at hm
    cases hfind : findSpan "POST:/query" traces with
    | none => rw [hfind] at hm; exact absurd hm (by simp)
    | some q =>
      rw [hfind] at hm
      simp only [Option.some.injEq] at hm
      subst hm
      rfl
  · norm_num +decide [extractTraceMetrics, findSpan, List.find?, List.filter, nsToSeconds]
  · norm_num +decide [extractTraceMetrics, findSpan, List.find?, List.filter, nsToSeconds]

/-- Witness for C4: the subtractive formula applied to the concrete
trace with `total = 10`, `sql = 2` and no LLM span. -/
theorem pure_code_execution_subtractive_witness :
    (⟨10, ⟨some 2, none, some 8⟩, 0⟩ : TraceMetrics).spanDurations.pure_code_execution
      = some ((10 : ℚ) - (some (2 : ℚ)).getD 0 - (none : Option ℚ).getD 0) :=
  pure_code_execution_subtractive.1 _ _ pure_code_execution_subtractive.2.1

/-! ## Theorems: run batching in `processQuestion` (C9, C10) -/

/-- With a positive batch delay, the loop over `n` remaining batches
sleeps exactly `n - 1` times, each for `batchDelay * 1000` ms. -/
theorem processQuestionBatchLoop_delays (run : ℕ → Option ρ) (NUM_RUNS : ℕ)
    (batchDelay : ℚ) (hd : 0 < batchDelay) :
    ∀ (n batch : ℕ),
      (processQuestionBatchLoop run NUM_RUNS batchDelay batch n).2
        = List.replicate (n - 1) (batchDelay * 1000)
  | 0, batch => by simp [processQuestionBatchLoop]
  | n + 1, batch => by
    simp only [processQuestionBatchLoop]
    rw [processQuestionBatchLoop_delays run NUM_RUNS batchDelay hd n (batch + 1)]
    cases n with
    | zero => simp
    | succ m => simp [hd, List.replicate_succ]

/-- The loop over `n` remaining batches starting at batch index `b`
produces the results of runs `b * NUM_RUNS` through
`b * NUM_RUNS + n * NUM_RUNS - 1`, in run-number order. -/
theorem processQuestionBatchLoop_runs (run : ℕ → Option ρ) (NUM_RUNS : ℕ)
    (batchDelay : ℚ) :
    ∀ (n batch : ℕ),
      (processQuestionBatchLoop run NUM_RUNS batchDelay batch n).1
        = (List.range' (batch * NUM_RUNS) (n * NUM_RUNS)).map run
  | 0, batch => by simp [processQuestionBatchLoop]
  | n + 1, batch => by
    simp only [processQuestionBatchLoop]
    rw [processQuestionBatchLoop_runs run NUM_RUNS batchDelay n (batch + 1)]
    have h1 : (List.range NUM_RUNS).map (fun j => run (batch * NUM_RUNS + j))
        = (List.range' (batch * NUM_RUNS) NUM_RUNS).map run := by
      rw [List.range'_eq_map_range, List.map_map]
      rfl
    have h2 := List.range'_append (batch * NUM_RUNS) NUM_RUNS (n * NUM_RUNS) 1
    rw [h1, ← List.map_append]
    rw [show (batch + 1) * NUM_RUNS = batch * NUM_RUNS + 1 * NUM_RUNS by ring]
    rw [h2]
    congr 1
    ring_nf

/-- C9: batches run one after the other (the accumulated `allRuns` list
is exactly the runs of batches `0, 1, …` in run-number order), and
with a positive `batch-delay` a sleep of `batch-delay` seconds
(`batchDelay * 1000` ms) occurs between consecutive batches and not
after the last one: `numBatches - 1` sleeps in total. -/
theorem processQuestion_sequential_batches_with_delay (run : ℕ → Option ρ)
    (NUM_RUNS numBatches : ℕ) (batchDelay : ℚ) (hd : 0 < batchDelay) :
    (processQuestionRuns run NUM_RUNS numBatches batchDelay).2
      = List.replicate (numBatches - 1) (batchDelay * 1000) ∧
    (processQuestionRuns run NUM_RUNS numBatches batchDelay).1
      = (List.range (numBatches * NUM_RUNS)).map run := by
  constructor
  · exact processQuestionBatchLoop_delays run NUM_RUNS batchDelay hd numBatches 0
  · rw [processQuestionRuns,
      processQuestionBatchLoop_runs run NUM_RUNS batchDelay numBatches 0]
    rw [List.range_eq_range']
    norm_num

/-- Witness for C9: 3 batches of 2 runs with a 5 second delay sleep
twice for 5000 ms and execute runs 0 through 5 in order. -/
theorem processQuestion_sequential_batches_with_delay_witness :
    (processQuestionRuns (fun n => some n) 2 3 5).2 = [5000, 5000] ∧
    (processQuestionRuns (fun n => some n) 2 3 5).1
      = [some 0, some 1, some 2, some 3, some 4, some 5] := by
  have h := processQuestion_sequential_batches_with_delay (fun n => some n) 2 3 5
    (by norm_num)
  refine ⟨?_, ?_⟩
  · rw [h.1]; norm_num [List.replicate]
  · rw [h.2]; rfl

/-- C10: for every (question, environment) pair, the recorded
`successful_runs + failed_runs` equals `NUM_RUNS` (the per-batch run
count) even though `numBatches * NUM_RUNS` runs were executed for the
pair; hence when more than `NUM_RUNS` runs succeed — possible as soon
as `num-batches > 1` — the recorded `failed_runs` is negative. -/
theorem pairStats_sums_to_num_runs (run : ℕ → Option ρ)
    (NUM_RUNS numBatches : ℕ) (batchDelay : ℚ) :
    ((pairStats NUM_RUNS
        (processQuestionRuns run NUM_RUNS numBatches batchDelay).1).1 : ℤ)
      + (pairStats NUM_RUNS
          (processQuestionRuns run NUM_RUNS numBatches batchDelay).1).2
      = NUM_RUNS ∧
    (processQuestionRuns run NUM_RUNS numBatches batchDelay).1.length
      = numBatches * NUM_RUNS ∧
    ((NUM_RUNS : ℤ) < (pairStats NUM_RUNS
        (processQuestionRuns run NUM_RUNS numBatches batchDelay).1).1 →
      (pairStats NUM_RUNS
        (processQuestionRuns run NUM_RUNS numBatches batchDelay).1).2 < 0) := by
  refine ⟨?_, ?_, ?_⟩
  · dsimp only [pairStats]
    split_ifs with hpos
    · push_cast; ring
    · simp
  · rw [processQuestionRuns,
      processQuestionBatchLoop_runs run NUM_RUNS batchDelay numBatches 0]
    simp
  · intro hgt
    dsimp only [pairStats] at hgt ⊢
    split_ifs at hgt ⊢ with hpos
    · omega
    · omega

/-- Witness for C10: 2 batches of 1 run each, both succeeding, record
`successful_runs = 2` and `failed_runs = -1`. -/
theorem pairStats_sums_to_num_runs_witness :
    ((pairStats 1 (processQuestionRuns (fun n => some n) 1 2 0).1).1 : ℤ)
      + (pairStats 1 (processQuestionRuns (fun n => some n) 1 2 0).1).2 = 1 ∧
    (pairStats 1 (processQuestionRuns (fun n => some n) 1 2 0).1).2 < 0 := by
  have h := pairStats_sums_to_num_runs (fun n => some n) 1 2 0
  have hruns : (processQuestionRuns (fun n : ℕ => some n) 1 2 0).1
      = [some 0, some 1] := by
    rw [processQuestionRuns, processQuestionBatchLoop_runs (fun n => some n) 1 0 2 0]
    rfl
  refine ⟨h.1, h.2.2 ?_⟩
  rw [hruns]
  norm_num [pairStats, List.filterMap_cons, List.filterMap_nil]

/-! ## Theorems: trace fetcher (C1, C8) -/

/-- Running the polling loop on `L1 ++ L2` where every attempt in `L1`
fails prepends one backoff sleep per `L1` attempt and `L1.length`
attempts to the behaviour of the loop on `L2`. -/
theorem getTraceLoop_failed_front (backend : ℕ → List SpanRec) (traceId : String) :
    ∀ (L1 L2 : List ℕ), (∀ a ∈ L1, hasRootSpan (backend a) = false) → L2 ≠ [] →
      getTraceLoop backend traceId (L1 ++ L2)
        = ⟨(getTraceLoop backend traceId L2).result,
           L1.map backoffDelay ++ (getTraceLoop backend traceId L2).sleeps,
           L1.length + (getTraceLoop backend traceId L2).attempts⟩
  | [], L2, _, _ => by simp
  | a :: L1', L2, h, hL2 => by
    have ha := h a (List.mem_cons_self a L1')
    have hrec := getTraceLoop_failed_front backend traceId L1' L2
      (fun b hb => h b (List.mem_cons_of_mem a hb)) hL2
    cases hL : L1' ++ L2 with
    | nil => exact absurd (List.append_eq_nil.mp hL).2 hL2
    | cons c cs =>
      have step : getTraceLoop backend traceId (a :: (L1' ++ L2))
          = ⟨(getTraceLoop backend traceId (L1' ++ L2)).result,
             backoffDelay a :: (getTraceLoop backend traceId (L1' ++ L2)).sleeps,
             (getTraceLoop backend traceId (L1' ++ L2)).attempts + 1⟩ := by
        rw [hL]
        simp [getTraceLoop, ha]
      rw [List.cons_append, step, hrec]
      simp only [List.map_cons, List.cons_append, List.length_cons,
        GetTraceResult.mk.injEq]
      exact ⟨by trivial, by trivial, by omega⟩

/-- If every attempt in a nonempty attempt list fails, the loop throws
the trace-not-found error after sleeping once per non-final attempt. -/
theorem getTraceLoop_all_fail (backend : ℕ → List SpanRec) (traceId : String)
    (L : List ℕ) (hne : L ≠ [])
    (h : ∀ a ∈ L, hasRootSpan (backend a) = false) :
    getTraceLoop backend traceId L
      = ⟨.error (traceNotFoundMessage traceId),
         L.dropLast.map backoffDelay, L.length⟩ := by
  have hsplit : L.dropLast ++ [L.getLast hne] = L := List.dropLast_append_getLast hne
  have hlast : hasRootSpan (backend (L.getLast hne)) = false :=
    h _ (List.getLast_mem hne)
  have h1 : ∀ a ∈ L.dropLast, hasRootSpan (backend a) = false :=
    fun a ha => h a (List.dropLast_subset L ha)
  have hL2 : getTraceLoop backend traceId [L.getLast hne]
      = ⟨.error (traceNotFoundMessage traceId), [], 1⟩ := by
    simp [getTraceLoop, hlast]
  conv_lhs => rw [← hsplit]
  rw [getTraceLoop_failed_front backend traceId _ _ h1 (by simp), hL2]
  simp only [List.append_nil, GetTraceResult.mk.injEq]
  refine ⟨by trivial, by trivial, ?_⟩
  have hpos := List.length_pos.mpr hne
  rw [List.length_dropLast]
  omega

/-- If the attempts in `L1` fail and attempt `k` then finds the root
span, the loop returns the attempt-`k` response, having slept once per
`L1` attempt. -/
theorem getTraceLoop_success (backend : ℕ → List SpanRec) (traceId : String)
    (L1 : List ℕ) (k : ℕ) (L2 : List ℕ)
    (h1 : ∀ a ∈ L1, hasRootSpan (backend a) = false)
    (hk : hasRootSpan (backend k) = true) :
    getTraceLoop backend traceId (L1 ++ k :: L2)
      = ⟨.ok (k, backend k), L1.map backoffDelay, L1.length + 1⟩ := by
  rw [getTraceLoop_failed_front backend traceId L1 (k :: L2) h1 (by simp)]
  simp [getTraceLoop, hk]

/-- C1: (i) when the tracing backend produces the `POST:/query` root
span only on the 3rd attempt, `getTrace` returns that response on
attempt 3 after sleeping 1000 ms and then 2000 ms; (ii) in general,
after a failed attempt `a < 10` (all attempts up to `a` having failed),
the `a`-th sleep is `min(2^(a-1) * 1000, 30000)` ms; (iii) when the
root span never appears, `getTrace` throws after exactly 10 attempts. -/
theorem getTrace_retry_schedule :
    (∀ (backend : ℕ → List SpanRec) (traceId : String),
      hasRootSpan (backend 1) = false → hasRootSpan (backend 2) = false →
      hasRootSpan (backend 3) = true →
      getTrace backend traceId = ⟨.ok (3, backend 3), [1000, 2000], 3⟩) ∧
    (∀ (backend : ℕ → List SpanRec) (traceId : String) (a : ℕ),
      1 ≤ a → a < 10 →
      (∀ b, 1 ≤ b → b ≤ a → hasRootSpan (backend b) = false) →
      (getTrace backend traceId).sleeps[a - 1]?
        = some (min (2 ^ (a - 1) * 1000) 30000)) ∧
    (∀ (backend : ℕ → List SpanRec) (traceId : String),
      (∀ b, hasRootSpan (backend b) = false) →
      (getTrace backend traceId).result = .error (traceNotFoundMessage traceId) ∧
      (getTrace backend traceId).attempts = 10) := by
  refine ⟨?_, ?_, ?_⟩
  · intro backend traceId h1 h2 h3
    have hsplit : List.range' 1 10 = [1, 2] ++ 3 :: [4, 5, 6, 7, 8, 9, 10] := by
      decide
    have hfails : ∀ b ∈ [1, 2], hasRootSpan (backend b) = false := by
      intro b hb
      simp only [List.mem_cons, List.not_mem_nil, or_false] at hb
      rcases hb with rfl | rfl
      · exact h1
      · exact h2
    rw [getTrace, hsplit,
      getTraceLoop_success backend traceId [1, 2] 3 [4, 5, 6, 7, 8, 9, 10] hfails h3]
    simp [backoffDelay]
  · intro backend traceId a ha1 ha10 hfail
    have hsplit : List.range' 1 a ++ List.range' (1 + a) (10 - a)
        = List.range' 1 10 := by
      have h2 := List.range'_append 1 a (10 - a) 1
      simp only [one_mul] at h2
      rw [h2]
      congr 1
      omega
    have hfails : ∀ b ∈ List.range' 1 a, hasRootSpan (backend b) = false := by
      intro b hb
      rw [List.mem_range'_1] at hb
      exact hfail b hb.1 (by omega)
    have hne : List.range' (1 + a) (10 - a) ≠ [] := by
      simp only [ne_eq, List.range'_eq_nil]
      omega
    rw [getTrace, ← hsplit, getTraceLoop_failed_front backend traceId _ _ hfails hne]
    dsimp only
    rw [List.getElem?_append]
    have hlen : a - 1 < (List.map backoffDelay (List.range' 1 a)).length := by
      simp
      omega
    rw [if_pos hlen, List.getElem?_map]
    have hidx : (List.range' 1 a)[a - 1]? = some (1 + (a - 1)) := by
      have hlt : a - 1 < a := by omega
      simp [List.getElem?_range', hlt]
    rw [hidx]
    have harg : 1 + (a - 1) - 1 = a - 1 := by omega
    simp [backoffDelay, harg]
  · intro backend traceId hfail
    rw [getTrace, getTraceLoop_all_fail backend traceId (List.range' 1 10)
      (by decide) (fun a _ => hfail a)]
    refine ⟨rfl, ?_⟩
    show (List.range' 1 10).length = 10
    decide

/-- Witness for C1: a backend producing the root span only on attempt
3, and a backend never producing it. -/
theorem getTrace_retry_schedule_witness :
    getTrace (fun a => if a = 3 then [⟨"POST:/query", 7⟩] else []) "t"
      = ⟨.ok (3, [⟨"POST:/query", 7⟩]), [1000, 2000], 3⟩ ∧
    (getTrace (fun _ => ([] : List SpanRec)) "t").sleeps[1]? = some 2000 ∧
    (getTrace (fun _ => ([] : List SpanRec)) "t").result
      = .error (traceNotFoundMessage "t") ∧
    (getTrace (fun _ => ([] : List SpanRec)) "t").attempts = 10 := by
  refine ⟨?_, ?_,
    (getTrace_retry_schedule.2.2 (fun _ => ([] : List SpanRec)) "t" (fun _ => rfl)).1,
    (getTrace_retry_schedule.2.2 (fun _ => ([] : List SpanRec)) "t" (fun _ => rfl)).2⟩
  · have h := getTrace_retry_schedule.1
      (fun a => if a = 3 then [⟨"POST:/query", 7⟩] else []) "t"
      (by decide) (by decide) (by decide)
    simpa using h
  · have h := getTrace_retry_schedule.2.1 (fun _ => ([] : List SpanRec)) "t" 2
      (by norm_num) (by norm_num) (fun b _ _ => rfl)
    simpa using h

/-- C8 (amended): when all 10 polling attempts find no root span,
`getTrace` fails after exactly 10 attempts with an error whose message
is the fixed text followed by the trace ID — it carries the trace ID,
but no numeric attempt count. -/
theorem getTrace_exhausted_error (backend : ℕ → List SpanRec) (traceId : String)
    (h : ∀ a, hasRootSpan (backend a) = false) :
    (getTrace backend traceId).result
      = .error ("No traces found with POST:/query span after maximum retries for trace ID: "
          ++ traceId) ∧
    (getTrace backend traceId).attempts = 10 := by
  rw [getTrace, getTraceLoop_all_fail backend traceId (List.range' 1 10)
    (by decide) (fun a _ => h a)]
  refine ⟨rfl, ?_⟩
  show (List.range' 1 10).length = 10
  decide

/-- Counterexample for C8 as stated: for a backend that never returns
the root span and trace ID `"abc"`, the thrown error's message is the
fixed text plus the trace ID and contains no digit character at all,
so it cannot carry the attempt count (10). -/
theorem getTrace_error_lacks_attempt_count :
    (getTrace (fun _ => ([] : List SpanRec)) "abc").result
      = .error "No traces found with POST:/query span after maximum retries for trace ID: abc"
    ∧ ("No traces found with POST:/query span after maximum retries for trace ID: abc").data.all
        (fun c => !c.isDigit) = true := by
  refine ⟨?_, by decide⟩
  rw [getTrace, getTraceLoop_all_fail (fun _ => ([] : List SpanRec)) "abc"
    (List.range' 1 10) (by decide) (fun a _ => rfl)]
  show Except.error (traceNotFoundMessage "abc") = _
  rw [traceNotFoundMessage]
  congr 1

/-- Witness for C8's amended theorem, at a backend that never returns
the root span. -/
theorem getTrace_exhausted_error_witness :
    (getTrace (fun _ => ([] : List SpanRec)) "xyz").result
      = .error ("No traces found with POST:/query span after maximum retries for trace ID: "
          ++ "xyz") ∧
    (getTrace (fun _ => ([] : List SpanRec)) "xyz").attempts = 10 :=
  getTrace_exhausted_error (fun _ => []) "xyz" (fun _ => rfl)

/-! ## Theorems: environment validation and resolution (C5, C6) -/

/-- C5: whenever at least two requested environments have missing
required configuration, `validateAllEnvironments` produces one single
error (`some errs`) and that one error lists, for every requested
environment with missing items, its display name together with all of
its missing variable and resource names — it does not stop at the
first environment. -/
theorem validateAllEnvironments_consolidated (ev : EnvVars)
    (promptFileOnDisk : String → Bool) (envs : List EnvTarget)
    (e1 e2 : EnvTarget) (h1 : e1 ∈ envs) (h2 : e2 ∈ envs)
    (hm1 : missingVarsFor ev promptFileOnDisk e1 ≠ [])
    (hm2 : missingVarsFor ev promptFileOnDisk e2 ≠ []) :
    ∃ errs, validateAllEnvironments ev promptFileOnDisk envs = some errs ∧
      ∀ e ∈ envs, missingVarsFor ev promptFileOnDisk e ≠ [] →
        (e.displayName, missingVarsFor ev promptFileOnDisk e) ∈ errs := by
  classical
  set allMissing :=
    (envs.map (fun e => (e.displayName, missingVarsFor ev promptFileOnDisk e))).filter
      (fun p => !p.2.isEmpty) with hdef
  have hmem : ∀ e ∈ envs, missingVarsFor ev promptFileOnDisk e ≠ [] →
      (e.displayName, missingVarsFor ev promptFileOnDisk e) ∈ allMissing := by
    intro e he hne
    rw [hdef]
    apply List.mem_filter.mpr
    refine ⟨List.mem_map.mpr ⟨e, he, rfl⟩, ?_⟩
    simpa [List.isEmpty_iff] using hne
  have hnonempty : ¬ (allMissing.isEmpty = true) := by
    intro hcon
    rw [List.isEmpty_iff] at hcon
    have := hmem e1 h1 hm1
    rw [hcon] at this
    exact List.not_mem_nil _ this
  refine ⟨allMissing, ?_, hmem⟩
  rw [validateAllEnvironments]
  rw [← hdef]
  rw [if_neg hnonempty]

/-- Witness for C5: two requested environments (`dev` and
`production`), each with missing variables and a missing system-prompt
file, produce one consolidated error covering both. -/
theorem validateAllEnvironments_consolidated_witness :
    ∃ errs, validateAllEnvironments
        ⟨none, some "https://promptql.example.com/api", none, none, none, none, none,
         none, none, none, none, some "tok", some "pat"⟩ (fun _ => false)
        [⟨"dev", none, "dev"⟩, ⟨"production", none, "production"⟩] = some errs ∧
      ∀ e ∈ [⟨"dev", none, "dev"⟩, (⟨"production", none, "production"⟩ : EnvTarget)],
        missingVarsFor
          ⟨none, some "https://promptql.example.com/api", none, none, none, none, none,
           none, none, none, none, some "tok", some "pat"⟩ (fun _ => false) e ≠ [] →
        (e.displayName,
          missingVarsFor
            ⟨none, some "https://promptql.example.com/api", none, none, none, none, none,
             none, none, none, none, some "tok", some "pat"⟩ (fun _ => false) e) ∈ errs :=
  validateAllEnvironments_consolidated _ _ _
    ⟨"dev", none, "dev"⟩ ⟨"production", none, "production"⟩
    (by decide) (by decide) (by decide) (by decide)

/-- The platform URL parse of the spec's example backend URL. -/
theorem parseURL_production_example :
    parseURL "https://app-production.example.com/v1/sql"
      = some ⟨"https:", "app-production.example.com", ["v1", "sql"]⟩ := by
  decide

/-- Rewriting the first hostname label and re-serialising yields the
spec's expected URL. -/
theorem serializeURL_production_example :
    serializeURL ⟨"https:", rewriteHostname "app-production.example.com" "abc123",
        ["v1", "sql"]⟩
      = "https://app-production-abc123.example.com/v1/sql" := by
  decide

/-- C6: resolving `production` with version `abc123` when the
production backend URL is `https://app-production.example.com/v1/sql`
yields a config whose `DDN_URL` is
`https://app-production-abc123.example.com/v1/sql` (the `-abc123`
suffix inserted after the first DNS label) and whose remaining fields
are exactly the per-environment lookup values. -/
theorem getEnvironmentConfig_version_rewrites_hostname (ev : EnvVars)
    (h : ev.DDN_URL_PRODUCTION = some "https://app-production.example.com/v1/sql") :
    getEnvironmentConfig ev ⟨"production", some "abc123", "production(abc123)"⟩
      = .ok ⟨ev.PROMPTQL_DATA_PLANE_URL_MAIN, ev.PROMPTQL_API_KEY_PRODUCTION,
             some "https://app-production-abc123.example.com/v1/sql",
             ev.PATRONUS_BASE_URL, ev.PATRONUS_API_KEY, ev.PATRONUS_PROJECT_ID⟩ := by
  have hbase : baseConfigFor ev "production"
      = some ⟨ev.PROMPTQL_DATA_PLANE_URL_MAIN, ev.PROMPTQL_API_KEY_PRODUCTION,
              ev.DDN_URL_PRODUCTION, ev.PATRONUS_BASE_URL, ev.PATRONUS_API_KEY,
              ev.PATRONUS_PROJECT_ID⟩ := rfl
  simp only [getEnvironmentConfig, hbase, h]
  norm_num +decide [jsTruthy, parseURL_production_example, serializeURL_production_example]

/-- Witness for C6 at a concrete environment-variable assignment. -/
theorem getEnvironmentConfig_version_rewrites_hostname_witness :
    getEnvironmentConfig
        ⟨none, none, none, none, none, none, none,
         some "https://app-production.example.com/v1/sql", none, none, none, none, none⟩
        ⟨"production", some "abc123", "production(abc123)"⟩
      = .ok ⟨none, none, some "https://app-production-abc123.example.com/v1/sql",
             none, none, none⟩ :=
  getEnvironmentConfig_version_rewrites_hostname _ rfl

/-! ## Theorems: Patronus judge client (C7) -/

/-- A 200 response whose `results[0]` carries a truthy (nonempty)
`error_message` is treated as a thrown error by the attempt body. -/
theorem judgeAttempt_error_message (results : List JudgeResultRec)
    (r0 : JudgeResultRec) (msg : String) (hh : results.head? = some r0)
    (hmsg : r0.error_message = some msg) (hne : msg ≠ "") :
    judgeAttempt (.resp 200 results) = none := by
  simp [judgeAttempt, hh, hmsg, jsTruthy, hne]

/-- C7: (i) if the judge backend's response carries an `error_message`
in `results[0]` on all 3 attempts (a nonempty one — the source's
truthiness check ignores an empty `error_message`), `callPatronusJudge`
returns `null` after 3 attempts with two fixed 1000 ms sleeps between
them, never throwing; (ii) if attempt 1 fails (in any way) and attempt
2 returns a 200 response without `error_message` whose `results[0]`
carries an `evaluation_result` object, the call returns the parsed
result after one 1000 ms sleep, with `passed` taken from `pass` when
present and otherwise from `passed`, and `score` taken from
`score_raw` when present and otherwise from `score`. -/
theorem callPatronusJudge_retry_and_parse :
    (∀ backend : ℕ → JudgeHTTP,
      (∀ a, 1 ≤ a → a ≤ 3 → ∃ results r0 msg,
        backend a = .resp 200 results ∧ results.head? = some r0 ∧
        r0.error_message = some msg ∧ msg ≠ "") →
      callPatronusJudge backend = (none, [1000, 1000])) ∧
    (∀ (backend : ℕ → JudgeHTTP) (results : List JudgeResultRec)
        (r0 : JudgeResultRec) (f : JudgeFields),
      judgeAttempt (backend 1) = none →
      backend 2 = .resp 200 results → results.head? = some r0 →
      r0.error_message = none → r0.evaluation_result = some f →
      ∃ v, callPatronusJudge backend = (some v, [1000]) ∧
        (∀ b, f.pass = some b → v.passed = b) ∧
        (f.pass = none → ∀ b, f.passed = some b → v.passed = b) ∧
        (∀ s, f.score_raw = some s → v.score = s) ∧
        (f.score_raw = none → ∀ s, f.score = some s → v.score = s)) := by
  constructor
  · intro backend hfail
    have h1 : judgeAttempt (backend 1) = none := by
      obtain ⟨results, r0, msg, hb, hh, hmsg, hne⟩ := hfail 1 (by norm_num) (by norm_num)
      rw [hb]
      exact judgeAttempt_error_message results r0 msg hh hmsg hne
    have h2 : judgeAttempt (backend 2) = none := by
      obtain ⟨results, r0, msg, hb, hh, hmsg, hne⟩ := hfail 2 (by norm_num) (by norm_num)
      rw [hb]
      exact judgeAttempt_error_message results r0 msg hh hmsg hne
    have h3 : judgeAttempt (backend 3) = none := by
      obtain ⟨results, r0, msg, hb, hh, hmsg, hne⟩ := hfail 3 (by norm_num) (by norm_num)
      rw [hb]
      exact judgeAttempt_error_message results r0 msg hh hmsg hne
    simp [callPatronusJudge, judgeLoop, h1, h2, h3]
  · intro backend results r0 f h1 hb hh hmsg hev
    have h2 : judgeAttempt (backend 2) = some (extractVerdict f) := by
      rw [hb]
      simp [judgeAttempt, hh, hmsg, hev, jsTruthy]
    refine ⟨extractVerdict f, ?_, ?_, ?_, ?_, ?_⟩
    · simp [callPatronusJudge, judgeLoop, h1, h2]
    · intro b hbp
      simp [extractVerdict, hbp]
    · intro hnone b hbp
      simp [extractVerdict, hnone, hbp]
    · intro s hs
      simp [extractVerdict, hs]
    · intro hnone s hs
      simp [extractVerdict, hnone, hs]

/-- Witness for C7: a backend always answering 200 with an
`error_message`, and a backend that throws on attempt 1 and succeeds
on attempt 2 with `pass` and `score_raw` present. -/
theorem callPatronusJudge_retry_and_parse_witness :
    callPatronusJudge
        (fun _ => .resp 200 [⟨some "x", none, JudgeFields.empty⟩])
      = (none, [1000, 1000]) ∧
    (∃ v, callPatronusJudge
        (fun a => if a = 1 then .throwErr
          else .resp 200 [⟨none, some ⟨some 1, none, some true, none, none, none⟩,
            JudgeFields.empty⟩])
      = (some v, [1000]) ∧
      (∀ b, (some true : Option Bool) = some b → v.passed = b) ∧
      ((some true : Option Bool) = none → ∀ b, (none : Option Bool) = some b → v.passed = b) ∧
      (∀ s, (some 1 : Option ℚ) = some s → v.score = s) ∧
      ((some 1 : Option ℚ) = none → ∀ s, (none : Option ℚ) = some s → v.score = s)) := by
  constructor
  · exact callPatronusJudge_retry_and_parse.1 _
      (fun a _ _ => ⟨[⟨some "x", none, JudgeFields.empty⟩],
        ⟨some "x", none, JudgeFields.empty⟩, "x", rfl, rfl, rfl, by decide⟩)
  · exact callPatronusJudge_retry_and_parse.2 _
      [⟨none, some ⟨some 1, none, some true, none, none, none⟩, JudgeFields.empty⟩]
      ⟨none, some ⟨some 1, none, some true, none, none, none⟩, JudgeFields.empty⟩
      ⟨some 1, none, some true, none, none, none⟩ rfl rfl rfl rfl rfl
